import Mathlib

/-!
Verification of the stock-data dashboard (`src/app.py`) against its
specification. The Python source is shallowly embedded below: the
session-state search history becomes explicit list passing, the
Streamlit metric strings become Lean `String` computations, and the
catch-all `try/except` around the provider call becomes an explicit
outcome type. Python floats are modelled as exact rationals, with
two-decimal formatting rounding the exact value (half away from zero).
-/

namespace StockApp

/-- Recent-searches ledger update, embedded from `src/app.py` lines 66-69:

    if ticker and ticker not in st.session_state.search_history:
        st.session_state.search_history.insert(0, ticker)
        if len(st.session_state.search_history) > 10:
            st.session_state.search_history = st.session_state.search_history[:10]

Python truthiness of a string is non-emptiness. -/
def record (ticker : String) (history : List String) : List String :=
  if ticker ≠ "" ∧ ticker ∉ history then
    if (ticker :: history).length > 10 then (ticker :: history).take 10
    else ticker :: history
  else history

/-- The provider interaction as seen from inside the `try` block of
`src/app.py` lines 72-76: the call either raises (caught at line 187)
or returns the `info` mapping, modelled as an association list from
field names to numeric values. -/
inductive ProviderCall where
  | raises (msg : String)
  | returns (info : List (String × ℚ))
deriving DecidableEq

/-- Outcome of one lookup, the error taxonomy of the spec: the
`except Exception` branch (line 187) is `providerFailure`, the
`not info or 'currentPrice' not in info` branch (line 78) is
`notFound`, and the `else` branch (line 81) is `success`. -/
inductive LookupOutcome where
  | providerFailure (msg : String)
  | notFound
  | success
deriving DecidableEq

/-- Classification of the provider response, embedded from
`src/app.py` lines 72-81 and 187:

    try:
        ...
        if not info or 'currentPrice' not in info:
            st.error(...)            # NotFound
        else:
            ...                      # success path renders the data
    except Exception as e:
        st.error(...)                # ProviderFailure
-/
def fetchOutcome : ProviderCall → LookupOutcome
  | .raises msg => .providerFailure msg
  | .returns info =>
      if info = [] ∨ "currentPrice" ∉ info.map Prod.fst then .notFound else .success

/-- One full interaction of the Search page (`src/app.py` lines 64-189):
the ticker is recorded into the history (lines 66-69) and then the
provider is consulted (lines 72-189). Note the recording happens
before, and independently of, the fetch outcome. -/
def searchStep (ticker : String) (history : List String) (pr : ProviderCall) :
    List String × LookupOutcome :=
  (record ticker history, fetchOutcome pr)

/-! ### Number formatting

Python's `f"{x:.2f}"` on these values is modelled by rounding the exact
rational to hundredths (half away from zero for the magnitude) and
printing the integer and two-digit fractional parts. -/

/-- Two-digit zero-padded rendering of a value below 100. -/
def pad2 (n : ℕ) : String :=
  if n < 10 then "0" ++ toString n else toString n

/-- Insert thousands separators into a digit list given least-significant
digit first. -/
def groupDigits : List Char → List Char
  | a :: b :: c :: d :: rest => a :: b :: c :: ',' :: groupDigits (d :: rest)
  | l => l

/-- Thousands-grouped decimal rendering of a natural number, matching
Python's `,` format flag. -/
def groupThousands (n : ℕ) : String :=
  String.mk (groupDigits (toString n).data.reverse).reverse

/-- The number of hundredths in a non-negative rational, rounded half up:
`round (100 * q)` computed on numerator and denominator. -/
def natCents (q : ℚ) : ℕ :=
  (200 * q.num.toNat + q.den) / (2 * q.den)

/-- The number of hundredths in the quotient `mc / scale`, rounded half
up — the value printed by Python's `f"{mc/scale:.2f}"` for integer
inputs, computed without leaving `ℕ`. -/
def scaledCents (mc scale : ℕ) : ℕ :=
  (200 * mc + scale) / (2 * scale)

/-- Render a count of hundredths as a two-decimal number, for example
`15000 ↦ "150.00"`. -/
def centsRender (c : ℕ) : String :=
  toString (c / 100) ++ "." ++ pad2 (c % 100)

/-- Like `centsRender` but with thousands grouping in the integer part,
matching Python's `:,.2f`. -/
def centsRenderGrouped (c : ℕ) : String :=
  groupThousands (c / 100) ++ "." ++ pad2 (c % 100)

/-- Python `f"{q:.2f}"` (two decimals, no grouping, sign only when
negative) on an exact rational. -/
def fmt2 (q : ℚ) : String :=
  (if q < 0 then "-" else "") ++ centsRender (natCents |q|)

/-- Python `f"{q:+.2f}"` (two decimals, explicit sign) on an exact
rational. -/
def fmtPlus2 (q : ℚ) : String :=
  (if q < 0 then "-" else "+") ++ centsRender (natCents |q|)

/-- Python `f"{q:,.2f}"` (two decimals, thousands grouping) on an exact
rational. -/
def fmtComma2 (q : ℚ) : String :=
  (if q < 0 then "-" else "") ++ centsRenderGrouped (natCents |q|)

/-- Change percent, embedded from `src/app.py` line 92:

    change_percent = (change / previous_close * 100) if previous_close else 0
-/
def change_percent (current_price previous_close : ℚ) : ℚ :=
  if previous_close ≠ 0 then (current_price - previous_close) / previous_close * 100 else 0

/-- A rendered Streamlit metric: the main value string and the optional
delta string. -/
structure PriceMetric where
  value : String
  delta : Option String
deriving DecidableEq

/-- The Current Price metric, embedded from `src/app.py` lines 89-99:

    current_price = info.get('currentPrice', 0)
    previous_close = info.get('previousClose', 0)
    change = current_price - previous_close
    change_percent = (change / previous_close * 100) if previous_close else 0
    st.metric(
        "Current Price",
        f"${current_price:,.2f}" if current_price else "N/A",
        delta=f"{change:+.2f} ({change_percent:+.2f}%)" if change else None
    )

Absent fields arrive here as the default `0`. -/
def currentPriceMetric (current_price previous_close : ℚ) : PriceMetric :=
  { value := if current_price ≠ 0 then "$" ++ fmtComma2 current_price else "N/A"
    delta := if current_price - previous_close ≠ 0 then
        some (fmtPlus2 (current_price - previous_close) ++ " (" ++
          fmtPlus2 (change_percent current_price previous_close) ++ "%)")
      else none }

/-- One line of the Trading Information panel, embedded from
`src/app.py` lines 131-135, for example:

    st.write(f"**Open:** ${info.get('open', 0):.2f}")

An absent field defaults to `0` and is rendered like any other value:
there is no placeholder on this path. -/
def tradingInfoLine (label : String) (v : ℚ) : String :=
  "**" ++ label ++ ":** $" ++ fmt2 v

/-- The Market Cap metric string, embedded from `src/app.py`
lines 106-118:

    market_cap = info.get('marketCap', 0)
    if market_cap:
        if market_cap >= 1e12:
            cap_str = f"${market_cap/1e12:.2f}T"
        elif market_cap >= 1e9:
            cap_str = f"${market_cap/1e9:.2f}B"
        elif market_cap >= 1e6:
            cap_str = f"${market_cap/1e6:.2f}M"
        else:
            cap_str = f"${market_cap:,.0f}"
        st.metric("Market Cap", cap_str)
    else:
        st.metric("Market Cap", "N/A")

Market capitalisations are non-negative integers, so `market_cap` is a
`ℕ` and the scaled quotient is rendered through `natCents`. -/
def formatMarketCap (market_cap : ℕ) : String :=
  if market_cap ≠ 0 then
    if market_cap ≥ 10 ^ 12 then "$" ++ centsRender (scaledCents market_cap (10 ^ 12)) ++ "T"
    else if market_cap ≥ 10 ^ 9 then "$" ++ centsRender (scaledCents market_cap (10 ^ 9)) ++ "B"
    else if market_cap ≥ 10 ^ 6 then "$" ++ centsRender (scaledCents market_cap (10 ^ 6)) ++ "M"
    else "$" ++ groupThousands market_cap
  else "N/A"

/-! ### CSV export -/

/-- One record of the historical series, as described by the spec's
data model (timestamp plus OHLCV). Cell values are kept as already
rendered strings, since the export serialises whatever the provider
returned. The `opn` field models the `open` column (`open` is a Lean
keyword). -/
structure OHLCVRecord where
  timestamp : String
  opn : String
  high : String
  low : String
  close : String
  volume : String
deriving DecidableEq

/-- Modelled from the spec: `src/app.py` line 179 exports
`hist.to_csv()`, where `hist` is the provider's historical series and
`to_csv` is external library code not in this repository; the spec
describes the result as comma-separated text with one row per record
and column order timestamp, open, high, low, close, volume. -/
def csvRow (r : OHLCVRecord) : String :=
  String.intercalate "," [r.timestamp, r.opn, r.high, r.low, r.close, r.volume]

/-- Modelled from the spec: the lines of the exported file, a header
row followed by one `csvRow` per historical record. -/
def csvLines (rows : List OHLCVRecord) : List String :=
  "timestamp,open,high,low,close,volume" :: rows.map csvRow

/-- Modelled from the spec: the full exported text, the lines joined by
newlines. -/
def toCsv (rows : List OHLCVRecord) : String :=
  String.intercalate "\n" (csvLines rows)

/-- Export file name, embedded from `src/app.py` line 183:

    file_name=f"{ticker}_data_{period}.csv"
-/
def exportFileName (ticker period : String) : String :=
  ticker ++ "_data_" ++ period ++ ".csv"

/-! ### Formatting lemmas

Rational arithmetic does not reduce inside `decide`, so the formatter
is evaluated on concrete inputs through these lemmas, which push a
natural-number input through the `ℚ`-level definitions. -/

/-- Hundredths of a natural number seen as a rational. -/
lemma natCents_natCast (n : ℕ) : natCents (n : ℚ) = 100 * n := by
  unfold natCents
  rw [Rat.num_natCast, Rat.den_natCast]
  simp
  omega

/-- Evaluation of the signed two-decimal format on a natural number. -/
lemma fmtPlus2_natCast (n : ℕ) : fmtPlus2 (n : ℚ) = "+" ++ centsRender (100 * n) := by
  unfold fmtPlus2
  rw [if_neg (not_lt.mpr (Nat.cast_nonneg n)), abs_of_nonneg (Nat.cast_nonneg n),
    natCents_natCast]

/-- Evaluation of the plain two-decimal format on a natural number. -/
lemma fmt2_natCast (n : ℕ) : fmt2 (n : ℚ) = centsRender (100 * n) := by
  unfold fmt2
  rw [if_neg (not_lt.mpr (Nat.cast_nonneg n)), abs_of_nonneg (Nat.cast_nonneg n),
    natCents_natCast]
  exact String.empty_append _

/-- Evaluation of the grouped two-decimal format on a natural number. -/
lemma fmtComma2_natCast (n : ℕ) : fmtComma2 (n : ℚ) = centsRenderGrouped (100 * n) := by
  unfold fmtComma2
  rw [if_neg (not_lt.mpr (Nat.cast_nonneg n)), abs_of_nonneg (Nat.cast_nonneg n),
    natCents_natCast]
  exact String.empty_append _

/-! ### Ledger lemmas -/

/-- Recording a ticker that is already in the history leaves the
history untouched. -/
lemma record_eq_of_mem {t : String} {h : List String} (hm : t ∈ h) :
    record t h = h := by
  unfold record
  rw [if_neg]
  intro hc
  exact hc.2 hm

/-- Recording a fresh non-empty ticker puts it at the head. -/
lemma record_head {t : String} {h : List String} (ht : t ≠ "") (hn : t ∉ h) :
    (record t h).head? = some t := by
  unfold record
  rw [if_pos ⟨ht, hn⟩]
  split
  · rfl
  · rfl

/-- After recording a non-empty ticker it is somewhere in the history. -/
lemma record_mem {t : String} (h : List String) (ht : t ≠ "") :
    t ∈ record t h := by
  by_cases hm : t ∈ h
  · rw [record_eq_of_mem hm]; exact hm
  · have hh := record_head ht hm
    exact List.mem_of_mem_head? (hh ▸ rfl)

/-- Recording a fresh non-empty ticker genuinely changes the history. -/
lemma record_ne {t : String} {h : List String} (ht : t ≠ "") (hn : t ∉ h) :
    record t h ≠ h := by
  intro he
  have hh := record_head ht hn
  rw [he] at hh
  exact hn (List.mem_of_mem_head? (hh ▸ rfl))

/-- One `record` step preserves the ledger invariant: length at most 10
and no duplicates. -/
lemma record_preserves_inv (t : String) {h : List String}
    (hl : h.length ≤ 10) (hd : h.Nodup) :
    (record t h).length ≤ 10 ∧ (record t h).Nodup := by
  unfold record
  split
  · rename_i hc
    constructor
    · split
      · exact List.length_take_le 10 (t :: h)
      · rename_i hlen
        simpa using Nat.le_of_lt_succ (Nat.lt_succ_of_le (by simpa using Nat.le_of_not_lt hlen))
    · have hnd : (t :: h).Nodup := List.nodup_cons.mpr ⟨hc.2, hd⟩
      split
      · exact hnd.sublist (List.take_sublist 10 (t :: h))
      · exact hnd
  · exact ⟨hl, hd⟩

/-- The invariant propagates through any sequence of recordings. -/
lemma foldl_record_inv (ops : List String) :
    ∀ h : List String, h.length ≤ 10 → h.Nodup →
      (ops.foldl (fun acc t => record t acc) h).length ≤ 10 ∧
      (ops.foldl (fun acc t => record t acc) h).Nodup := by
  induction ops with
  | nil => intro h hl hd; exact ⟨hl, hd⟩
  | cons t ops ih =>
      intro h hl hd
      rw [List.foldl_cons]
      obtain ⟨hl', hd'⟩ := record_preserves_inv t hl hd
      exact ih _ hl' hd'

/-! ### Claim theorems -/

/-- C1 counterexample: the ticker AAPL is looked up successfully while
already present in the history at index 1; afterwards it is still at
index 1, not at index 0, so a successful lookup of an already-present
ticker does not put it at the front. -/
theorem C1_counterexample :
    (searchStep "AAPL" ["MSFT", "AAPL"]
        (ProviderCall.returns [("currentPrice", 100)])).2 = LookupOutcome.success ∧
    (searchStep "AAPL" ["MSFT", "AAPL"]
        (ProviderCall.returns [("currentPrice", 100)])).1 = ["MSFT", "AAPL"] ∧
    (searchStep "AAPL" ["MSFT", "AAPL"]
        (ProviderCall.returns [("currentPrice", 100)])).1.head? ≠ some "AAPL" := by
  refine ⟨by decide, by decide, by decide⟩

/-- C1 (amended): after a successful lookup of a non-empty ticker `t`,
`t` is in the history; it is at index 0 when it was not already
present, and when it was already present the history — and hence the
position of `t` — is unchanged. -/
theorem C1_ledger_front_amended (t : String) (h : List String) (pr : ProviderCall)
    (_hsucc : fetchOutcome pr = LookupOutcome.success) (ht : t ≠ "") :
    t ∈ (searchStep t h pr).1 ∧
    (t ∉ h → (searchStep t h pr).1.head? = some t) ∧
    (t ∈ h → (searchStep t h pr).1 = h) := by
  refine ⟨record_mem h ht, fun hn => record_head ht hn, fun hm => record_eq_of_mem hm⟩

/-- C1 witness: instantiating the amended theorem at a fresh ticker on
an empty history. -/
theorem C1_ledger_front_amended_witness :
    "AAPL" ∈ (searchStep "AAPL" [] (ProviderCall.returns [("currentPrice", 100)])).1 ∧
    (searchStep "AAPL" [] (ProviderCall.returns [("currentPrice", 100)])).1.head? =
      some "AAPL" :=
  have h := C1_ledger_front_amended "AAPL" []
    (ProviderCall.returns [("currentPrice", 100)]) (by decide) (by decide)
  ⟨h.1, h.2.1 (by decide)⟩

/-- C2: starting from the empty session history, any sequence of
recordings leaves the ledger with at most 10 entries and no duplicate
ticker. -/
theorem C2_ledger_invariant (ops : List String) :
    (ops.foldl (fun acc t => record t acc) []).length ≤ 10 ∧
    (ops.foldl (fun acc t => record t acc) []).Nodup :=
  foldl_record_inv ops [] (by simp) List.nodup_nil

/-- C3 counterexample: a lookup that fails with a provider error still
mutates the ledger — the ticker is recorded before the fetch, so the
history is no longer what it was before the interaction. -/
theorem C3_counterexample :
    (searchStep "ZZZZ" [] (ProviderCall.raises "boom")).2 =
      LookupOutcome.providerFailure "boom" ∧
    (searchStep "ZZZZ" [] (ProviderCall.raises "boom")).1 = ["ZZZZ"] ∧
    (searchStep "ZZZZ" [] (ProviderCall.raises "boom")).1 ≠ [] := by
  refine ⟨by decide, by decide, by decide⟩

/-- C3 (amended): the ledger update is independent of the lookup's
outcome — every interaction with a non-empty, not-yet-present ticker
mutates the ledger, including interactions that fail with NotFound or
ProviderFailure, because the ticker is recorded before the fetch. -/
theorem C3_amended (t : String) (h : List String) (pr pr' : ProviderCall)
    (ht : t ≠ "") (hn : t ∉ h) :
    (searchStep t h pr).1 = record t h ∧
    (searchStep t h pr).1 = (searchStep t h pr').1 ∧
    (searchStep t h pr).1 ≠ h :=
  ⟨rfl, rfl, record_ne ht hn⟩

/-- C3 witness: instantiating the amended theorem at a failing provider
call. -/
theorem C3_amended_witness :
    (searchStep "ZZZZ" [] (ProviderCall.raises "boom")).1 = record "ZZZZ" [] ∧
    (searchStep "ZZZZ" [] (ProviderCall.raises "boom")).1 =
      (searchStep "ZZZZ" [] (ProviderCall.returns [])).1 ∧
    (searchStep "ZZZZ" [] (ProviderCall.raises "boom")).1 ≠ [] :=
  C3_amended "ZZZZ" [] (ProviderCall.raises "boom") (ProviderCall.returns [])
    (by decide) (by decide)

/-- C4: recording an already-present ticker is a no-op — the history is
unchanged, so its length and the position of the ticker are unchanged
too, and no error is possible. -/
theorem C4_record_idempotent (t : String) (h : List String) (hm : t ∈ h) :
    record t h = h ∧
    (record t h).indexOf t = h.indexOf t ∧
    (record t h).length = h.length :=
  ⟨record_eq_of_mem hm, by rw [record_eq_of_mem hm], by rw [record_eq_of_mem hm]⟩

/-- C4 witness: instantiating the theorem where AAPL is already the
second entry. -/
theorem C4_record_idempotent_witness :
    record "AAPL" ["MSFT", "AAPL"] = ["MSFT", "AAPL"] ∧
    (record "AAPL" ["MSFT", "AAPL"]).indexOf "AAPL" =
      (["MSFT", "AAPL"] : List String).indexOf "AAPL" ∧
    (record "AAPL" ["MSFT", "AAPL"]).length = (["MSFT", "AAPL"] : List String).length :=
  C4_record_idempotent "AAPL" ["MSFT", "AAPL"] (by decide)

/-- C5: the Market Cap string uses the descending thresholds 10^12,
10^9, 10^6 with suffixes T, B, M and two decimals of the scaled value,
falls back to the thousands-grouped raw integer below 10^6, renders
zero as N/A, and reproduces the spec's examples. -/
theorem C5_market_cap_format :
    (∀ mc : ℕ, 10 ^ 12 ≤ mc →
        formatMarketCap mc = "$" ++ centsRender (scaledCents mc (10 ^ 12)) ++ "T") ∧
    (∀ mc : ℕ, 10 ^ 9 ≤ mc → mc < 10 ^ 12 →
        formatMarketCap mc = "$" ++ centsRender (scaledCents mc (10 ^ 9)) ++ "B") ∧
    (∀ mc : ℕ, 10 ^ 6 ≤ mc → mc < 10 ^ 9 →
        formatMarketCap mc = "$" ++ centsRender (scaledCents mc (10 ^ 6)) ++ "M") ∧
    (∀ mc : ℕ, mc ≠ 0 → mc < 10 ^ 6 →
        formatMarketCap mc = "$" ++ groupThousands mc) ∧
    formatMarketCap 0 = "N/A" ∧
    formatMarketCap 2500000000000 = "$2.50T" ∧
    formatMarketCap 850000000 = "$850.00M" := by
  have hp : ((10 : ℕ) ^ 12 = 1000000000000 ∧ (10 : ℕ) ^ 9 = 1000000000 ∧
      (10 : ℕ) ^ 6 = 1000000) := by norm_num
  obtain ⟨h12, h9, h6⟩ := hp
  refine ⟨?_, ?_, ?_, ?_, by decide, by decide, by decide⟩
  · intro mc hm
    unfold formatMarketCap
    rw [if_pos (by omega : mc ≠ 0), if_pos (by omega : mc ≥ 10 ^ 12)]
  · intro mc hm hlt
    unfold formatMarketCap
    rw [if_pos (by omega : mc ≠ 0), if_neg (by omega : ¬mc ≥ 10 ^ 12),
      if_pos (by omega : mc ≥ 10 ^ 9)]
  · intro mc hm hlt
    unfold formatMarketCap
    rw [if_pos (by omega : mc ≠ 0), if_neg (by omega : ¬mc ≥ 10 ^ 12),
      if_neg (by omega : ¬mc ≥ 10 ^ 9), if_pos (by omega : mc ≥ 10 ^ 6)]
  · intro mc hm hlt
    unfold formatMarketCap
    rw [if_pos (by omega : mc ≠ 0), if_neg (by omega : ¬mc ≥ 10 ^ 12),
      if_neg (by omega : ¬mc ≥ 10 ^ 9), if_neg (by omega : ¬mc ≥ 10 ^ 6)]

/-- C5 witness: each threshold branch instantiated at a concrete
market cap. -/
theorem C5_market_cap_format_witness :
    formatMarketCap 3000000000000 =
      "$" ++ centsRender (scaledCents 3000000000000 (10 ^ 12)) ++ "T" ∧
    formatMarketCap 2000000000 =
      "$" ++ centsRender (scaledCents 2000000000 (10 ^ 9)) ++ "B" ∧
    formatMarketCap 5000000 =
      "$" ++ centsRender (scaledCents 5000000 (10 ^ 6)) ++ "M" ∧
    formatMarketCap 123456 = "$" ++ groupThousands 123456 :=
  ⟨C5_market_cap_format.1 3000000000000 (by norm_num),
   C5_market_cap_format.2.1 2000000000 (by norm_num) (by norm_num),
   C5_market_cap_format.2.2.1 5000000 (by norm_num) (by norm_num),
   C5_market_cap_format.2.2.2.1 123456 (by norm_num) (by norm_num)⟩

/-- C6 counterexample: with previous_close = 0 and current_price = 150
the delta is not omitted — it is rendered as "+150.00 (+0.00%)". -/
theorem C6_counterexample :
    (currentPriceMetric 150 0).delta = some "+150.00 (+0.00%)" ∧
    (currentPriceMetric 150 0).delta ≠ none := by
  have hch : (150 : ℚ) - 0 = ((150 : ℕ) : ℚ) := by norm_num
  have hcp : change_percent 150 0 = ((0 : ℕ) : ℚ) := by norm_num [change_percent]
  have hd : (currentPriceMetric 150 0).delta = some "+150.00 (+0.00%)" := by
    simp only [currentPriceMetric, hch, hcp, fmtPlus2_natCast]
    rw [if_pos (by norm_num : ((150 : ℕ) : ℚ) ≠ 0)]
    decide
  exact ⟨hd, by rw [hd]; simp⟩

/-- C6 (amended): when previous_close is zero or absent the change
percent is set to 0 rather than computed from the division formula,
which is applied only for non-zero previous_close; however the delta is
omitted only when the change itself is zero — with previous_close = 0
that happens exactly when current_price = 0, and otherwise a delta
showing a 0.00% percentage is displayed. -/
theorem C6_delta_zero_previous_close_amended (cp pc : ℚ) :
    change_percent cp 0 = 0 ∧
    (pc ≠ 0 → change_percent cp pc = (cp - pc) / pc * 100) ∧
    ((currentPriceMetric cp 0).delta = none ↔ cp = 0) := by
  refine ⟨by simp [change_percent], fun hpc => by simp [change_percent, hpc], ?_⟩
  by_cases hc : cp = 0
  · simp [currentPriceMetric, hc]
  · simp [currentPriceMetric, sub_zero, hc]

/-- C6 witness: the percent formula applied at current_price = 150,
previous_close = 100. -/
theorem C6_delta_zero_previous_close_amended_witness :
    change_percent 150 100 = ((150 : ℚ) - 100) / 100 * 100 :=
  (C6_delta_zero_previous_close_amended 150 100).2.1 (by norm_num)

/-- C7 counterexample: the Trading Information line for an absent or
zero open price renders "$0.00", not the "N/A" placeholder. -/
theorem C7_counterexample :
    tradingInfoLine "Open" 0 = "**Open:** $0.00" ∧
    tradingInfoLine "Open" 0 ≠ "**Open:** N/A" := by
  refine ⟨by decide, by decide⟩

/-- C7 (amended): the Current Price metric renders a zero or absent
price as N/A (regardless of the other fields) and a non-zero price as
currency with two decimals; the Trading Information price lines always
render as currency with two decimals, showing $0.00 — not N/A — for a
zero or absent value. -/
theorem C7_price_na_amended :
    (∀ pc : ℚ, (currentPriceMetric 0 pc).value = "N/A") ∧
    (∀ cp pc : ℚ, cp ≠ 0 → (currentPriceMetric cp pc).value = "$" ++ fmtComma2 cp) ∧
    (∀ v : ℚ, tradingInfoLine "Open" v = "**Open:** $" ++ fmt2 v) := by
  refine ⟨fun pc => by simp [currentPriceMetric],
    fun cp pc hcp => by simp [currentPriceMetric, hcp], fun v => rfl⟩

/-- C7 witness: the non-zero current price branch at 150. -/
theorem C7_price_na_amended_witness :
    (currentPriceMetric 150 100).value = "$" ++ fmtComma2 150 :=
  C7_price_na_amended.2.1 150 100 (by norm_num)

/-- C8: a provider response that returns is classified NotFound exactly
when the info mapping has no currentPrice key (in particular when it is
empty); it is never classified ProviderFailure, and the presence of the
currentPrice key is the only check — any info containing it succeeds. -/
theorem C8_notfound_classification (info : List (String × ℚ)) :
    (fetchOutcome (ProviderCall.returns info) = LookupOutcome.notFound ↔
      "currentPrice" ∉ info.map Prod.fst) ∧
    (∀ msg, fetchOutcome (ProviderCall.returns info) ≠
      LookupOutcome.providerFailure msg) ∧
    ("currentPrice" ∈ info.map Prod.fst →
      fetchOutcome (ProviderCall.returns info) = LookupOutcome.success) := by
  by_cases hm : "currentPrice" ∈ info.map Prod.fst
  · have hne : info ≠ [] := by intro h; rw [h] at hm; simp at hm
    refine ⟨?_, ?_, fun _ => ?_⟩ <;> simp [fetchOutcome, hm, hne]
  · refine ⟨?_, ?_, fun hmem => absurd hmem hm⟩ <;> simp [fetchOutcome, hm]

/-- C8 witness: a one-field info mapping carrying currentPrice passes
the check. -/
theorem C8_notfound_classification_witness :
    fetchOutcome (ProviderCall.returns [("currentPrice", 100)]) =
      LookupOutcome.success :=
  (C8_notfound_classification [("currentPrice", 100)]).2.2 (by decide)

/-- C9: the exported text is the newline-join of a header row followed
by one comma-separated row per historical record in order, with column
order timestamp, open, high, low, close, volume, and the file name is
the ticker and period around "_data_" with extension csv. -/
theorem C9_export_format (rows : List OHLCVRecord) (ticker period : String) :
    (csvLines rows).length = rows.length + 1 ∧
    (csvLines rows).head? = some "timestamp,open,high,low,close,volume" ∧
    (∀ i : ℕ, ∀ h1 : i < rows.length, ∀ h2 : i + 1 < (csvLines rows).length,
        (csvLines rows).get ⟨i + 1, h2⟩ = csvRow (rows.get ⟨i, h1⟩)) ∧
    toCsv rows = String.intercalate "\n" (csvLines rows) ∧
    exportFileName ticker period = ticker ++ "_data_" ++ period ++ ".csv" := by
  refine ⟨by simp [csvLines], rfl, ?_, rfl, rfl⟩
  intro i h1 h2
  simp [csvLines, List.get_eq_getElem]

/-- C9 witness: the row of a one-record series sits right after the
header. -/
theorem C9_export_format_witness :
    (csvLines [⟨"2024-01-02", "187.15", "188.44", "183.89", "185.64", "82488700"⟩]).get
        ⟨0 + 1, by decide⟩ =
      csvRow ⟨"2024-01-02", "187.15", "188.44", "183.89", "185.64", "82488700"⟩ :=
  (C9_export_format [⟨"2024-01-02", "187.15", "188.44", "183.89", "185.64", "82488700"⟩]
    "AAPL" "1mo").2.2.1 0 (by decide) (by decide)

/-- C10: the Current Price delta is omitted exactly when the computed
change is zero, that is, exactly when current_price equals
previous_close — in particular for any equal, non-zero pair the delta
is suppressed rather than shown as +0.00 (+0.00%). -/
theorem C10_zero_change_delta (cp pc : ℚ) :
    (currentPriceMetric cp pc).delta = none ↔ cp = pc := by
  by_cases hc : cp = pc
  · simp [currentPriceMetric, hc]
  · have hs : cp - pc ≠ 0 := sub_ne_zero.mpr hc
    simp [currentPriceMetric, hs, hc]

end StockApp

